import Mathlib

/-!
Verification development for the `minidump` parser
(`minidump/minidumpfile.py`).  The Python source is embedded shallowly:
pure byte manipulation becomes Lean functions, the mutable parser object
becomes explicit state passing, exceptions become `Except`.  Components of
the repository that are not part of the given source surface (the buffered
address-space reader, the constant offset tables, the header/stream
decoders) are modelled from the specification and marked as such in their
doc comments.
-/

set_option autoImplicit false

namespace Minidump

/-- Errors of the embedded parser.  Python exceptions are collapsed to this
enumeration: `unmappedAddress` for the reader's seek failure,
`decodeFailed` for `UnicodeDecodeError`, `indexOutOfRange` for
`IndexError`, `noneAttribute` for `AttributeError` on `None`,
`containerFormat` for a header magic mismatch, `fuelOut` for loop-fuel
exhaustion of the environment scan (never reached on the inputs proved
about). -/
inductive ReadErr where
  | unmappedAddress
  | decodeFailed
  | indexOutOfRange
  | noneAttribute
  | containerFormat
  | fuelOut
  deriving DecidableEq, Repr

/-- Byte strings are lists of naturals; every byte is taken modulo 256
where its numeric value matters. -/
abbrev Bytes := List Nat

/-- Embedding of Python `int.from_bytes(bs, "little")`. -/
def fromBytesLE (bs : Bytes) : Nat :=
  bs.foldr (fun b acc => b % 256 + 256 * acc) 0

/-- Embedding of Python slicing `bs[off : off + len]`. -/
def sliceBytes (bs : Bytes) (off len : Nat) : Bytes :=
  (bs.drop off).take len

/-- Modelled from the spec: a contiguous mapped memory region of the
reconstructed virtual address space (`minidumpreader.py` is not part of
the given source surface).  `data` holds the region's bytes; the region
covers virtual addresses `start_address ≤ va < start_address + data.length`. -/
structure MemorySegment where
  start_address : Nat
  data : Bytes
  deriving DecidableEq, Repr

/-- Virtual address one past the last mapped byte of the segment. -/
def MemorySegment.end_address (s : MemorySegment) : Nat :=
  s.start_address + s.data.length

/-- Modelled from the spec: the buffered address-space reader
(`minidumpreader.py` is not part of the given source surface).  It holds
the list of mapped segments and a cursor; `readLog` instruments every
`read` call with the pair (position, requested length) so that absence of
reads is provable. -/
structure BuffReader where
  segments : List MemorySegment
  current_position : Nat
  readLog : List (Nat × Nat)
  deriving DecidableEq, Repr

/-- Segment containing the virtual address `va`, if any. -/
def segmentFor (segs : List MemorySegment) (va : Nat) : Option MemorySegment :=
  segs.find? (fun s => decide (s.start_address ≤ va) && decide (va < s.end_address))

/-- Modelled from the spec: `seek(virtualAddress)`; fails with
`UnmappedAddressError` when no region contains the address. -/
def BuffReader.move (r : BuffReader) (va : Nat) : Except ReadErr BuffReader :=
  match segmentFor r.segments va with
  | none => .error .unmappedAddress
  | some _ => .ok { r with current_position := va }

/-- Modelled from the spec: `read(n)` returns up to `n` bytes from the
current region, clamped at the region boundary, and advances the cursor
by the number of bytes returned.  The requested read is appended to the
instrumentation log. -/
def BuffReader.read (r : BuffReader) (n : Nat) : Bytes × BuffReader :=
  match segmentFor r.segments r.current_position with
  | none => ([], { r with readLog := r.readLog ++ [(r.current_position, n)] })
  | some s =>
      let offset := r.current_position - s.start_address
      let k := min n (s.data.length - offset)
      (sliceBytes s.data offset k,
       { r with
           current_position := r.current_position + k,
           readLog := r.readLog ++ [(r.current_position, n)] })

/-- Modelled from the spec: `current_segment.end_address` of the region
containing the cursor (the cursor is always inside a region right after a
successful `move`). -/
def BuffReader.regionEnd (r : BuffReader) : Nat :=
  match segmentFor r.segments r.current_position with
  | none => r.current_position
  | some s => s.end_address

/-- UTF-16 code units from a little-endian byte string; `none` on odd
length (Python raises `UnicodeDecodeError` on a truncated code unit). -/
def utf16UnitsLE : Bytes → Option (List Nat)
  | [] => some []
  | [_] => none
  | lo :: hi :: rest => (utf16UnitsLE rest).map (fun us => (lo % 256 + 256 * (hi % 256)) :: us)

/-- UTF-16 code units from a big-endian byte string. -/
def utf16UnitsBE : Bytes → Option (List Nat)
  | [] => some []
  | [_] => none
  | hi :: lo :: rest => (utf16UnitsBE rest).map (fun us => (lo % 256 + 256 * (hi % 256)) :: us)

/-- Characters from UTF-16 code units, combining surrogate pairs; `none`
on a lone surrogate (Python raises `UnicodeDecodeError`). -/
def unitsToChars : List Nat → Option (List Char)
  | [] => some []
  | u :: us =>
    if u < 0xD800 || 0xDFFF < u then
      (unitsToChars us).map (fun cs => Char.ofNat u :: cs)
    else if u ≤ 0xDBFF then
      match us with
      | [] => none
      | v :: us' =>
        if 0xDC00 ≤ v && v ≤ 0xDFFF then
          (unitsToChars us').map
            (fun cs => Char.ofNat (0x10000 + (u - 0xD800) * 0x400 + (v - 0xDC00)) :: cs)
        else none
    else none

/-- Embedding of Python `bytes.decode("utf-16")` producing the character
list: a leading byte-order mark selects endianness and is stripped;
without one the data is decoded little-endian. -/
def pyDecodeUtf16Chars (bs : Bytes) : Option (List Char) :=
  match bs with
  | 0xFF :: 0xFE :: rest => (utf16UnitsLE rest).bind unitsToChars
  | 0xFE :: 0xFF :: rest => (utf16UnitsBE rest).bind unitsToChars
  | _ => (utf16UnitsLE bs).bind unitsToChars

/-- Embedding of Python `str.split(sep)` for a single-character separator,
over character lists: splits at every occurrence, keeping empty chunks. -/
def splitOnChar (c : Char) : List Char → List (List Char)
  | [] => [[]]
  | x :: xs =>
    if x = c then [] :: splitOnChar c xs
    else
      match splitOnChar c xs with
      | [] => [[x]]
      | g :: gs => (x :: g) :: gs

/-- Embedding of Python `bytes.find(b"\x00\x00")`: index of the first pair
of consecutive zero bytes, `none` standing for Python's `-1`. -/
def find00 : Bytes → Option Nat
  | b0 :: b1 :: rest =>
      if b0 % 256 = 0 && b1 % 256 = 0 then some 0
      else (find00 (b1 :: rest)).map (fun i => i + 1)
  | _ => none

/-- One `name`/`value` environment entry
(`self.environment_variables` elements). -/
structure EnvVar where
  name : String
  value : String
  deriving DecidableEq, Repr

/-- Modelled from the spec: the per-field offset table `OFFSETS`
(`constants.py` is not part of the given source surface).  Field names
follow the keys used by `__parse_peb`. -/
structure PebOffsets where
  peb : Nat
  being_debugged : Nat
  image_base_address : Nat
  process_parameters : Nat
  image_path : Nat
  command_line : Nat
  window_title : Nat
  dll_path : Nat
  current_directory : Nat
  standard_input : Nat
  standard_output : Nat
  standard_error : Nat
  environment_variables : Nat
  buffer : Nat
  deriving DecidableEq, Repr

/-- Modelled from the spec: the 32-bit offset-constant table. -/
def offsets32 : PebOffsets :=
  { peb := 0x30, being_debugged := 0x2, image_base_address := 0x8,
    process_parameters := 0x10, image_path := 0x38, command_line := 0x40,
    window_title := 0x58, dll_path := 0x30, current_directory := 0x24,
    standard_input := 0x18, standard_output := 0x1c, standard_error := 0x20,
    environment_variables := 0x48, buffer := 0x4 }

/-- Modelled from the spec: the 64-bit offset-constant table. -/
def offsets64 : PebOffsets :=
  { peb := 0x60, being_debugged := 0x2, image_base_address := 0x10,
    process_parameters := 0x20, image_path := 0x60, command_line := 0x70,
    window_title := 0xb0, dll_path := 0x50, current_directory := 0x38,
    standard_input := 0x20, standard_output := 0x28, standard_error := 0x30,
    environment_variables := 0x80, buffer := 0x8 }

/-- Modelled from the spec: `OFFSETS` indexed by the bitness flag. -/
def OFFSETS (x64 : Bool) : PebOffsets :=
  if x64 then offsets64 else offsets32

/-- Modelled from the spec: `POINTER_SIZE` indexed by the bitness flag
(4 bytes for 32-bit processes, 8 for 64-bit). -/
def POINTER_SIZE (x64 : Bool) : Nat :=
  if x64 then 8 else 4

/-- Embedding of `MinidumpFile.__read_unicode_string_property`: read the
2-byte length at `addr`; on zero return the empty string, otherwise
dereference the buffer pointer at `addr + OFFSETS[x64]["buffer"]` and
decode `string_length` bytes as UTF-16. -/
def read_unicode_string_property (buff_reader : BuffReader) (addr : Nat) (x64 : Bool) :
    Except ReadErr (String × BuffReader) :=
  match buff_reader.move addr with
  | .error e => .error e
  | .ok r =>
    let res := r.read 2
    let string_length := fromBytesLE res.fst
    if string_length = 0 then .ok ("", res.snd)
    else
      match res.snd.move (addr + (OFFSETS x64).buffer) with
      | .error e => .error e
      | .ok r2 =>
        let res2 := r2.read (POINTER_SIZE x64)
        let buff_va := fromBytesLE res2.fst
        match res2.snd.move buff_va with
        | .error e => .error e
        | .ok r3 =>
          let res3 := r3.read string_length
          match pyDecodeUtf16Chars res3.fst with
          | none => .error .decodeFailed
          | some cs => .ok (String.mk cs, res3.snd)

/-- Embedding of the environment-variable loop of `MinidumpFile.__parse_peb`
(source lines 145-155): seek to `environment_va`, read the remainder of the
current region, and repeatedly cut entries at the first double-NUL,
splitting each on `=` and advancing the virtual cursor past the consumed
entry.  `fuel` bounds the number of iterations; the Python loop performs
at most finitely many since the cursor strictly advances inside a finite
region. -/
def envScan : Nat → BuffReader → Nat → List EnvVar → Except ReadErr (List EnvVar × BuffReader)
  | 0, _, _, _ => .error .fuelOut
  | fuel + 1, r0, environment_va, acc =>
    match r0.move environment_va with
    | .error e => .error e
    | .ok r1 =>
      let res := r1.read (r1.regionEnd - r1.current_position)
      let env_buffer := res.fst
      match find00 env_buffer with
      | none => .ok (acc, res.snd)
      | some env_len =>
        if env_len = 0 then .ok (acc, res.snd)
        else
          match pyDecodeUtf16Chars (env_buffer.take env_len ++ [0]) with
          | none => .error .decodeFailed
          | some decoded_env =>
            let parts := splitOnChar '=' decoded_env
            match parts[1]? with
            | none => .error .indexOutOfRange
            | some v =>
              envScan fuel res.snd (environment_va + (decoded_env.length + 1) * 2)
                (acc ++ [{ name := String.mk (parts.headD []), value := String.mk v }])

/-- Iteration bound for `envScan`: the cursor strictly increases and must
stay below every segment end, so one more than the largest end address
bounds the loop. -/
def envFuel (segs : List MemorySegment) : Nat :=
  segs.foldl (fun a s => max a s.end_address) 0 + 1

/-- One 32-bit memory region descriptor, as the spec's collaborator
interface supplies it: a start virtual address and an explicit file
location. -/
structure MINIDUMP_LOCATION_DESCRIPTOR where
  Rva : Nat
  DataSize : Nat
  deriving DecidableEq, Repr

/-- Modelled from the spec: one entry of the 32-bit memory-region list. -/
structure MinidumpMemorySegment where
  start_virtual_address : Nat
  Memory : MINIDUMP_LOCATION_DESCRIPTOR
  deriving DecidableEq, Repr

/-- Modelled from the spec: the decoded 32-bit memory-region list
(`MinidumpMemoryList`). -/
structure MinidumpMemoryList where
  memory_segments : List MinidumpMemorySegment
  deriving DecidableEq, Repr

/-- Modelled from the spec: one entry of the 64-bit memory-region list. -/
structure MinidumpMemorySegment64 where
  start_virtual_address : Nat
  size : Nat
  deriving DecidableEq, Repr

/-- Modelled from the spec: the decoded 64-bit memory-region list
(`MinidumpMemory64List`) together with the base file offset of its data. -/
structure MinidumpMemory64List where
  memory_segments : List MinidumpMemorySegment64
  base_rva : Nat
  deriving DecidableEq, Repr

/-- Embedding of the bitness inference at source line 94:
`self.x64 = (self.memory_segments_64 is not None) or (self.memory_segments
and any(mem.start_virtual_address > 0xFFFFFFFF for mem in
self.memory_segments))`, taken at its boolean value. -/
def x64flag (memory_segments_64 : Option MinidumpMemory64List)
    (memory_segments : Option MinidumpMemoryList) : Bool :=
  memory_segments_64.isSome ||
    (match memory_segments with
     | none => false
     | some ml => ml.memory_segments.any (fun mem => decide (0xFFFFFFFF < mem.start_virtual_address)))

/-- Modelled from the spec: the processor-architecture tag of the
system-info record (`SystemInfoStream.py` is not part of the given source
surface).  Only the constructors the dispatcher distinguishes matter. -/
inductive PROCESSOR_ARCHITECTURE where
  | INTEL
  | ARM
  | IA64
  | AMD64
  | ARM64
  | UNKNOWN
  deriving DecidableEq, Repr

/-- Modelled from the spec: the decoded system-info record, exposing the
processor-architecture tag. -/
structure MinidumpSystemInfo where
  ProcessorArchitecture : PROCESSOR_ARCHITECTURE
  deriving DecidableEq, Repr

/-- Modelled from the spec: a decoded 64-bit register context
(`CONTEXT.parse`); its internals are opaque to the core. -/
structure CONTEXT where
  raw : Bytes
  deriving DecidableEq, Repr

/-- Modelled from the spec: a decoded 32-bit (WOW64) register context
(`WOW64_CONTEXT.parse`); its internals are opaque to the core. -/
structure WOW64_CONTEXT where
  raw : Bytes
  deriving DecidableEq, Repr

/-- Value stored in a thread's `ContextObject` slot: the Python attribute
holds either a `CONTEXT` or a `WOW64_CONTEXT`, embedded as a sum. -/
inductive ThreadCtx where
  | full (c : CONTEXT)
  | wow64 (c : WOW64_CONTEXT)
  deriving DecidableEq, Repr

/-- Modelled from the spec: one thread descriptor, as the collaborator
interface supplies it: a TEB virtual address, a context-record file
location, and the mutable `ContextObject` slot (initially empty). -/
structure MinidumpThread where
  Teb : Nat
  ThreadContext : MINIDUMP_LOCATION_DESCRIPTOR
  ContextObject : Option ThreadCtx := none
  deriving DecidableEq, Repr

/-- Modelled from the spec: the decoded thread list (`MinidumpThreadList`). -/
structure MinidumpThreadList where
  threads : List MinidumpThread
  deriving DecidableEq, Repr

/-- Success test for `Except`. -/
def exceptIsOk {ε α : Type} : Except ε α → Bool
  | .ok _ => true
  | .error _ => false

/-- Successful value of an `Except`, if any. -/
def exceptToOption {ε α : Type} : Except ε α → Option α
  | .ok a => some a
  | .error _ => none

/-- Embedding of the loop body of `MinidumpFile.__parse_thread_context`
(source lines 291-297).  The file handle is seeked to each thread's
`ThreadContext.Rva` and the context decoder chosen by the architecture tag
is applied there; the decoders (`CONTEXT.parse`, `WOW64_CONTEXT.parse`,
collaborators outside the given source surface) are parameters taking the
file bytes and the seek offset.  An uncaught decoder exception stops the
loop: the failing thread and all later threads keep their previous
`ContextObject`, and the second component reports that an exception
escaped. -/
def parse_thread_context_loop
    (p64 : Bytes → Nat → Except Unit CONTEXT)
    (p32 : Bytes → Nat → Except Unit WOW64_CONTEXT)
    (file : Bytes) (arch : PROCESSOR_ARCHITECTURE) :
    List MinidumpThread → List MinidumpThread × Bool
  | [] => ([], false)
  | t :: ts =>
    if arch = .AMD64 then
      match p64 file t.ThreadContext.Rva with
      | .error _ => (t :: ts, true)
      | .ok c =>
        let rest := parse_thread_context_loop p64 p32 file arch ts
        ({ t with ContextObject := some (.full c) } :: rest.fst, rest.snd)
    else if arch = .INTEL then
      match p32 file t.ThreadContext.Rva with
      | .error _ => (t :: ts, true)
      | .ok c =>
        let rest := parse_thread_context_loop p64 p32 file arch ts
        ({ t with ContextObject := some (.wow64 c) } :: rest.fst, rest.snd)
    else
      let rest := parse_thread_context_loop p64 p32 file arch ts
      (t :: rest.fst, rest.snd)

/-- Modelled from the spec: the stream-type enumeration
(`constants.py` is not part of the given source surface); the constructors
are the tags the directory dispatcher distinguishes. -/
inductive MINIDUMP_STREAM_TYPE where
  | UnusedStream
  | ReservedStream0
  | ReservedStream1
  | ThreadListStream
  | ModuleListStream
  | MemoryListStream
  | ExceptionStream
  | SystemInfoStream
  | ThreadExListStream
  | Memory64ListStream
  | CommentStreamA
  | CommentStreamW
  | HandleDataStream
  | FunctionTableStream
  | UnloadedModuleListStream
  | MiscInfoStream
  | MemoryInfoListStream
  | ThreadInfoListStream
  | HandleOperationListStream
  | TokenStream
  | JavaScriptDataStream
  | SystemMemoryInfoStream
  | ProcessVmCountersStream
  | LastReservedStream
  deriving DecidableEq, Repr

/-- Modelled from the spec: numeric tag values of the minidump container
format; an unlisted value is an unknown/user stream. -/
def streamTypeOfNat (v : Nat) : Option MINIDUMP_STREAM_TYPE :=
  match v with
  | 0 => some .UnusedStream
  | 1 => some .ReservedStream0
  | 2 => some .ReservedStream1
  | 3 => some .ThreadListStream
  | 4 => some .ModuleListStream
  | 5 => some .MemoryListStream
  | 6 => some .ExceptionStream
  | 7 => some .SystemInfoStream
  | 8 => some .ThreadExListStream
  | 9 => some .Memory64ListStream
  | 10 => some .CommentStreamA
  | 11 => some .CommentStreamW
  | 12 => some .HandleDataStream
  | 13 => some .FunctionTableStream
  | 14 => some .UnloadedModuleListStream
  | 15 => some .MiscInfoStream
  | 16 => some .MemoryInfoListStream
  | 17 => some .ThreadInfoListStream
  | 18 => some .HandleOperationListStream
  | 19 => some .TokenStream
  | 20 => some .JavaScriptDataStream
  | 21 => some .SystemMemoryInfoStream
  | 22 => some .ProcessVmCountersStream
  | 0xffff => some .LastReservedStream
  | _ => none

/-- One directory entry: a stream-type tag and a location descriptor. -/
structure MINIDUMP_DIRECTORY where
  StreamType : MINIDUMP_STREAM_TYPE
  Location : MINIDUMP_LOCATION_DESCRIPTOR
  deriving DecidableEq, Repr

/-- Modelled from the spec: one loaded-module record; only its rendered
description matters to the core. -/
structure MinidumpModule where
  name : String
  baseaddress : Nat
  size : Nat
  deriving DecidableEq, Repr

/-- Modelled from the spec: the decoded module list (`MinidumpModuleList`). -/
structure MinidumpModuleList where
  modules : List MinidumpModule
  deriving DecidableEq, Repr

/-- Modelled from the spec: the decoded result of a stream whose internals
the core never inspects (comments, handles, misc info, ...). -/
structure RawStream where
  data : Bytes
  deriving DecidableEq, Repr

/-- Modelled from the spec: the container header
(`MinidumpHeader`, `header.py` is not part of the given source surface):
magic signature, stream count, directory table file offset. -/
structure MinidumpHeader where
  Signature : Nat
  NumberOfStreams : Nat
  StreamDirectoryRva : Nat
  deriving DecidableEq, Repr

/-- Embedding of the `MinidumpFile` object's decoded state.  The Python
attributes set by `__init__`, `__parse_header`, `__parse_directories` and
`__parse_peb` become fields; attributes only assigned by the PEB walk get
defaults standing for "not yet set".  The `filename`/`file_handle`
administrative attributes carry no decoded data and are omitted. -/
structure MinidumpFile where
  header : Option MinidumpHeader := none
  directories : List MINIDUMP_DIRECTORY := []
  threads_ex : Option RawStream := none
  threads : Option MinidumpThreadList := none
  modules : Option MinidumpModuleList := none
  memory_segments : Option MinidumpMemoryList := none
  memory_segments_64 : Option MinidumpMemory64List := none
  sysinfo : Option MinidumpSystemInfo := none
  comment_a : Option RawStream := none
  comment_w : Option RawStream := none
  exception : Option RawStream := none
  handles : Option RawStream := none
  unloaded_modules : Option RawStream := none
  misc_info : Option RawStream := none
  memory_info : Option RawStream := none
  thread_info : Option RawStream := none
  x64 : Bool := false
  peb_address : Nat := 0
  being_debugged : Nat := 0
  image_base_address : Nat := 0
  image_path : String := ""
  command_line : String := ""
  window_title : String := ""
  dll_path : String := ""
  current_directory : String := ""
  standard_input : Nat := 0
  standard_output : Nat := 0
  standard_error : Nat := 0
  environment_variables : List EnvVar := []
  deriving DecidableEq, Repr

/-- Freshly constructed `MinidumpFile()` (all decoded fields unset). -/
def minidumpFileInit : MinidumpFile := {}

/-- Modelled from the spec: the per-stream decoders are external
collaborators with a narrow interface; each takes the file bytes and the
directory entry and produces the decoded stream. -/
structure StreamDecoders where
  threadList : Bytes → MINIDUMP_DIRECTORY → MinidumpThreadList
  threadExList : Bytes → MINIDUMP_DIRECTORY → RawStream
  moduleList : Bytes → MINIDUMP_DIRECTORY → MinidumpModuleList
  memoryList : Bytes → MINIDUMP_DIRECTORY → MinidumpMemoryList
  memory64List : Bytes → MINIDUMP_DIRECTORY → MinidumpMemory64List
  systemInfo : Bytes → MINIDUMP_DIRECTORY → MinidumpSystemInfo
  commentA : Bytes → MINIDUMP_DIRECTORY → RawStream
  commentW : Bytes → MINIDUMP_DIRECTORY → RawStream
  exceptionList : Bytes → MINIDUMP_DIRECTORY → RawStream
  handleData : Bytes → MINIDUMP_DIRECTORY → RawStream
  unloadedModuleList : Bytes → MINIDUMP_DIRECTORY → RawStream
  miscInfo : Bytes → MINIDUMP_DIRECTORY → RawStream
  memoryInfoList : Bytes → MINIDUMP_DIRECTORY → RawStream
  threadInfoList : Bytes → MINIDUMP_DIRECTORY → RawStream

/-- Embedding of one iteration of the dispatch loop of
`MinidumpFile.__parse_directories` (source lines 173-276): the branch for
each recognized stream type stores the decoder's result into the matching
attribute; reserved, unimplemented and unknown types only log and leave
the model unchanged. -/
def dirStep (dec : StreamDecoders) (file : Bytes) (m : MinidumpFile)
    (dir : MINIDUMP_DIRECTORY) : MinidumpFile :=
  match dir.StreamType with
  | .UnusedStream => m
  | .ReservedStream0 => m
  | .ReservedStream1 => m
  | .ThreadListStream => { m with threads := some (dec.threadList file dir) }
  | .ModuleListStream => { m with modules := some (dec.moduleList file dir) }
  | .MemoryListStream => { m with memory_segments := some (dec.memoryList file dir) }
  | .SystemInfoStream => { m with sysinfo := some (dec.systemInfo file dir) }
  | .ThreadExListStream => { m with threads_ex := some (dec.threadExList file dir) }
  | .Memory64ListStream => { m with memory_segments_64 := some (dec.memory64List file dir) }
  | .CommentStreamA => { m with comment_a := some (dec.commentA file dir) }
  | .CommentStreamW => { m with comment_w := some (dec.commentW file dir) }
  | .ExceptionStream => { m with exception := some (dec.exceptionList file dir) }
  | .HandleDataStream => { m with handles := some (dec.handleData file dir) }
  | .FunctionTableStream => m
  | .UnloadedModuleListStream => { m with unloaded_modules := some (dec.unloadedModuleList file dir) }
  | .MiscInfoStream => { m with misc_info := some (dec.miscInfo file dir) }
  | .MemoryInfoListStream => { m with memory_info := some (dec.memoryInfoList file dir) }
  | .ThreadInfoListStream => { m with thread_info := some (dec.threadInfoList file dir) }
  | .SystemMemoryInfoStream => m
  | .JavaScriptDataStream => m
  | .ProcessVmCountersStream => m
  | .TokenStream => m
  | .HandleOperationListStream => m
  | .LastReservedStream => m

/-- Embedding of `MinidumpFile.__parse_thread_context` (source lines
288-297): return unchanged when the system info or the thread list is
missing, otherwise run the per-thread loop and store the updated threads.
The boolean reports whether a decoder exception escaped the loop. -/
def parse_thread_context
    (p64 : Bytes → Nat → Except Unit CONTEXT)
    (p32 : Bytes → Nat → Except Unit WOW64_CONTEXT)
    (file : Bytes) (m : MinidumpFile) : MinidumpFile × Bool :=
  match m.sysinfo, m.threads with
  | some si, some tl =>
    let res := parse_thread_context_loop p64 p32 file si.ProcessorArchitecture tl.threads
    ({ m with threads := some { threads := res.fst } }, res.snd)
  | _, _ => (m, false)

/-- Embedding of `MinidumpFile.__parse_directories` (source lines
171-286): fold the dispatch step over the recorded directory entries, then
attempt thread-context decoding inside a catch-all that logs and swallows
any exception. -/
def parse_directories (dec : StreamDecoders)
    (p64 : Bytes → Nat → Except Unit CONTEXT)
    (p32 : Bytes → Nat → Except Unit WOW64_CONTEXT)
    (file : Bytes) (m : MinidumpFile) : MinidumpFile :=
  let m := m.directories.foldl (dirStep dec file) m
  (parse_thread_context p64 p32 file m).fst

/-- Modelled from the spec: `MinidumpHeader.parse` reads the header at a
fixed little-endian layout (magic signature, then the stream count at
offset 8 and the directory-table offset at offset 12) and fails with
`ContainerFormatError` on a magic mismatch. -/
def MinidumpHeader.parse (file : Bytes) : Except ReadErr MinidumpHeader :=
  let signature := fromBytesLE (sliceBytes file 0 4)
  if signature = 0x504D444D then
    .ok { Signature := signature,
          NumberOfStreams := fromBytesLE (sliceBytes file 8 4),
          StreamDirectoryRva := fromBytesLE (sliceBytes file 12 4) }
  else .error .containerFormat

/-- Modelled from the spec: `MINIDUMP_DIRECTORY.parse` reads one 12-byte
entry (4-byte tag, then the location descriptor) and returns nothing when
the tag is no recognized stream type. -/
def parseDirAt (file : Bytes) (off : Nat) : Option MINIDUMP_DIRECTORY :=
  (streamTypeOfNat (fromBytesLE (sliceBytes file off 4))).map
    (fun t => { StreamType := t,
                Location := { Rva := fromBytesLE (sliceBytes file (off + 4) 4),
                              DataSize := fromBytesLE (sliceBytes file (off + 8) 4) } })

/-- Embedding of `MinidumpFile.__parse_header` (source lines 158-169):
parse the header, then read `NumberOfStreams` directory entries at
`StreamDirectoryRva`, appending each recognized entry and skipping (with a
log) each unknown one. -/
def parse_header_stage (file : Bytes) :
    Except ReadErr (MinidumpHeader × List MINIDUMP_DIRECTORY) :=
  match MinidumpHeader.parse file with
  | .error e => .error e
  | .ok header =>
    let dirs := (List.range header.NumberOfStreams).foldl
      (fun acc i =>
        match parseDirAt file (header.StreamDirectoryRva + i * 12) with
        | some d => acc ++ [d]
        | none => acc) []
    .ok (header, dirs)

/-- Modelled from the spec: the address-space construction of the buffered
reader.  A present 64-bit region list takes precedence, its regions' file
offsets computed as a running sum starting at the list's base offset; else
the 32-bit list's explicit per-entry file locations are used. -/
def buildSegments (file : Bytes) (memory_segments_64 : Option MinidumpMemory64List)
    (memory_segments : Option MinidumpMemoryList) : List MemorySegment :=
  match memory_segments_64 with
  | some ml =>
    (ml.memory_segments.foldl
      (fun acc seg =>
        (acc.fst ++ [{ start_address := seg.start_virtual_address,
                       data := sliceBytes file acc.snd seg.size }],
         acc.snd + seg.size))
      (([] : List MemorySegment), ml.base_rva)).fst
  | none =>
    match memory_segments with
    | some ml =>
      ml.memory_segments.map
        (fun seg => { start_address := seg.start_virtual_address,
                      data := sliceBytes file seg.Memory.Rva seg.Memory.DataSize })
    | none => []

/-- Embedding of `MinidumpFile.__parse_peb` (source lines 93-155): infer
the bitness flag, build the buffered reader over the reconstructed address
space, then chase TEB → PEB → RTL_USER_PROCESS_PARAMETERS, reading the
debug flag, image base, the five UTF-16 strings, the three standard
handles and the environment block.  The source wraps none of this in a
handler, so every failure propagates. -/
def parse_peb (file : Bytes) (m : MinidumpFile) : Except ReadErr MinidumpFile := do
  let x64 := x64flag m.memory_segments_64 m.memory_segments
  let off := OFFSETS x64
  let psize := POINTER_SIZE x64
  let r0 : BuffReader :=
    { segments := buildSegments file m.memory_segments_64 m.memory_segments,
      current_position := 0, readLog := [] }
  let tl ← match m.threads with
    | none => Except.error ReadErr.noneAttribute
    | some tl => pure tl
  let t0 ← match tl.threads[0]? with
    | none => Except.error ReadErr.indexOutOfRange
    | some t => pure t
  let r ← r0.move (t0.Teb + off.peb)
  let res := r.read psize
  let peb_address := fromBytesLE res.fst
  let r ← res.snd.move (peb_address + off.being_debugged)
  let res := r.read 1
  let being_debugged := fromBytesLE res.fst
  let r ← res.snd.move (peb_address + off.image_base_address)
  let res := r.read psize
  let image_base_address := fromBytesLE res.fst
  let r ← res.snd.move (peb_address + off.process_parameters)
  let res := r.read psize
  let process_parameters := fromBytesLE res.fst
  let (image_path, r) ← read_unicode_string_property res.snd
    (process_parameters + off.image_path) x64
  let (command_line, r) ← read_unicode_string_property r
    (process_parameters + off.command_line) x64
  let (window_title, r) ← read_unicode_string_property r
    (process_parameters + off.window_title) x64
  let (dll_path, r) ← read_unicode_string_property r
    (process_parameters + off.dll_path) x64
  let (current_directory, r) ← read_unicode_string_property r
    (process_parameters + off.current_directory) x64
  let r ← r.move (process_parameters + off.standard_input)
  let res := r.read psize
  let standard_input := fromBytesLE res.fst
  let r ← res.snd.move (process_parameters + off.standard_output)
  let res := r.read psize
  let standard_output := fromBytesLE res.fst
  let r ← res.snd.move (process_parameters + off.standard_error)
  let res := r.read psize
  let standard_error := fromBytesLE res.fst
  let r ← res.snd.move (process_parameters + off.environment_variables)
  let res := r.read psize
  let environment_va := fromBytesLE res.fst
  let (environment_variables, _) ←
    envScan (envFuel res.snd.segments) res.snd environment_va []
  pure { m with
    x64 := x64,
    peb_address := peb_address,
    being_debugged := being_debugged,
    image_base_address := image_base_address,
    image_path := image_path,
    command_line := command_line,
    window_title := window_title,
    dll_path := dll_path,
    current_directory := current_directory,
    standard_input := standard_input,
    standard_output := standard_output,
    standard_error := standard_error,
    environment_variables := environment_variables }

/-- Embedding of `MinidumpFile._parse` (source lines 78-81): header stage,
then directory dispatch, then the PEB walk, in order, with no handler
around any of the three calls. -/
def _parse (dec : StreamDecoders)
    (p64 : Bytes → Nat → Except Unit CONTEXT)
    (p32 : Bytes → Nat → Except Unit WOW64_CONTEXT)
    (file : Bytes) : Except ReadErr MinidumpFile := do
  let hd ← parse_header_stage file
  let m := { minidumpFileInit with header := some hd.fst, directories := hd.snd }
  let m := parse_directories dec p64 p32 file m
  parse_peb file m

/-- Embedding of `MinidumpFile.parse_bytes`: parse an in-memory byte
string (the `BytesIO` wrapper adds nothing to the embedded byte source). -/
def parse_bytes (dec : StreamDecoders)
    (p64 : Bytes → Nat → Except Unit CONTEXT)
    (p32 : Bytes → Nat → Except Unit WOW64_CONTEXT)
    (data : Bytes) : Except ReadErr MinidumpFile :=
  _parse dec p64 p32 data

/-- Rendering of an optional object, matching Python `str`: `str(None)` is
the text `None`, never an error. -/
def optStr {α : Type} (f : α → String) : Option α → String
  | none => "None"
  | some v => f v

/-- Description of the header for the summary renderer. -/
def headerStr (h : MinidumpHeader) : String :=
  "Header streams " ++ toString h.NumberOfStreams ++ " rva " ++ toString h.StreamDirectoryRva

/-- Description of the system-info record for the summary renderer. -/
def sysinfoStr (s : MinidumpSystemInfo) : String :=
  "SystemInfo " ++ toString (repr s.ProcessorArchitecture)

/-- Description of one directory entry for the summary renderer. -/
def dirStr (d : MINIDUMP_DIRECTORY) : String :=
  "Directory " ++ toString (repr d.StreamType) ++ " at " ++ toString d.Location.Rva

/-- Description of one module for the summary renderer. -/
def moduleStr (mo : MinidumpModule) : String :=
  mo.name ++ " base " ++ toString mo.baseaddress ++ " size " ++ toString mo.size

/-- Description of one 32-bit memory segment for the summary renderer. -/
def segStr (s : MinidumpMemorySegment) : String :=
  "Segment at " ++ toString s.start_virtual_address

/-- Description of one 64-bit memory segment for the summary renderer. -/
def seg64Str (s : MinidumpMemorySegment64) : String :=
  "Segment64 at " ++ toString s.start_virtual_address

/-- Embedding of `MinidumpFile.__str__` (source lines 300-316): stringify
the header and system info (Python `str(None)` renders as text, raising
nothing), list the directory entries, then iterate `self.modules.modules`
unguarded — an `AttributeError` when `modules` is `None` — and finally the
two memory-segment lists, each guarded by an explicit `None` check. -/
def MinidumpFile.str (m : MinidumpFile) : Except ReadErr String :=
  let t := "== Minidump File ==\n"
  let t := t ++ optStr headerStr m.header
  let t := t ++ optStr sysinfoStr m.sysinfo
  let t := t ++ String.join (m.directories.map (fun d => dirStr d ++ "\n"))
  match m.modules with
  | none => .error .noneAttribute
  | some ml =>
    let t := t ++ String.join (ml.modules.map (fun mo => moduleStr mo ++ "\n"))
    let t := match m.memory_segments with
      | none => t
      | some ms => t ++ String.join (ms.memory_segments.map (fun s => segStr s ++ "\n"))
    let t := match m.memory_segments_64 with
      | none => t
      | some ms => t ++ String.join (ms.memory_segments.map (fun s => seg64Str s ++ "\n"))
    .ok t

/-- Sum of the possible decoded stream values, one constructor per model
field the dispatch loop can assign; it lets the per-tag fields of
`MinidumpFile` be read uniformly. -/
inductive StreamValue where
  | threadsV (v : MinidumpThreadList)
  | threadsExV (v : RawStream)
  | modulesV (v : MinidumpModuleList)
  | memoryV (v : MinidumpMemoryList)
  | memory64V (v : MinidumpMemory64List)
  | sysinfoV (v : MinidumpSystemInfo)
  | commentAV (v : RawStream)
  | commentWV (v : RawStream)
  | exceptionV (v : RawStream)
  | handlesV (v : RawStream)
  | unloadedModulesV (v : RawStream)
  | miscInfoV (v : RawStream)
  | memoryInfoV (v : RawStream)
  | threadInfoV (v : RawStream)
  deriving DecidableEq, Repr

/-- Tags for which the dispatch loop stores a decoded value into a model
field (as opposed to reserved, unimplemented and unknown tags, which only
log). -/
def assigningTag : MINIDUMP_STREAM_TYPE → Bool
  | .ThreadListStream => true
  | .ModuleListStream => true
  | .MemoryListStream => true
  | .SystemInfoStream => true
  | .ThreadExListStream => true
  | .Memory64ListStream => true
  | .CommentStreamA => true
  | .CommentStreamW => true
  | .ExceptionStream => true
  | .HandleDataStream => true
  | .UnloadedModuleListStream => true
  | .MiscInfoStream => true
  | .MemoryInfoListStream => true
  | .ThreadInfoListStream => true
  | _ => false

/-- Model field owned by a stream-type tag, read uniformly. -/
def getStreamField (t : MINIDUMP_STREAM_TYPE) (m : MinidumpFile) : Option StreamValue :=
  match t with
  | .ThreadListStream => m.threads.map .threadsV
  | .ModuleListStream => m.modules.map .modulesV
  | .MemoryListStream => m.memory_segments.map .memoryV
  | .SystemInfoStream => m.sysinfo.map .sysinfoV
  | .ThreadExListStream => m.threads_ex.map .threadsExV
  | .Memory64ListStream => m.memory_segments_64.map .memory64V
  | .CommentStreamA => m.comment_a.map .commentAV
  | .CommentStreamW => m.comment_w.map .commentWV
  | .ExceptionStream => m.exception.map .exceptionV
  | .HandleDataStream => m.handles.map .handlesV
  | .UnloadedModuleListStream => m.unloaded_modules.map .unloadedModulesV
  | .MiscInfoStream => m.misc_info.map .miscInfoV
  | .MemoryInfoListStream => m.memory_info.map .memoryInfoV
  | .ThreadInfoListStream => m.thread_info.map .threadInfoV
  | _ => none

/-- Decoded value a directory entry of tag `t` contributes: the decoder
the dispatch loop invokes for that tag, wrapped into `StreamValue`. -/
def decodeValue (dec : StreamDecoders) (file : Bytes) (t : MINIDUMP_STREAM_TYPE)
    (dir : MINIDUMP_DIRECTORY) : Option StreamValue :=
  match t with
  | .ThreadListStream => some (.threadsV (dec.threadList file dir))
  | .ModuleListStream => some (.modulesV (dec.moduleList file dir))
  | .MemoryListStream => some (.memoryV (dec.memoryList file dir))
  | .SystemInfoStream => some (.sysinfoV (dec.systemInfo file dir))
  | .ThreadExListStream => some (.threadsExV (dec.threadExList file dir))
  | .Memory64ListStream => some (.memory64V (dec.memory64List file dir))
  | .CommentStreamA => some (.commentAV (dec.commentA file dir))
  | .CommentStreamW => some (.commentWV (dec.commentW file dir))
  | .ExceptionStream => some (.exceptionV (dec.exceptionList file dir))
  | .HandleDataStream => some (.handlesV (dec.handleData file dir))
  | .UnloadedModuleListStream => some (.unloadedModulesV (dec.unloadedModuleList file dir))
  | .MiscInfoStream => some (.miscInfoV (dec.miscInfo file dir))
  | .MemoryInfoListStream => some (.memoryInfoV (dec.memoryInfoList file dir))
  | .ThreadInfoListStream => some (.threadInfoV (dec.threadInfoList file dir))
  | _ => none

/-! Concrete inputs used by the witnesses and counterexamples below. -/

/-- Concrete stream decoders for evaluating the pipeline on witness
inputs: each decoder builds a small value from the entry's location. -/
def cdec : StreamDecoders :=
  { threadList := fun _ d =>
      { threads := [{ Teb := 0x1000,
                      ThreadContext := { Rva := d.Location.Rva, DataSize := d.Location.DataSize } }] },
    threadExList := fun _ d => { data := [d.Location.Rva] },
    moduleList := fun _ d =>
      { modules := [{ name := "mod", baseaddress := d.Location.Rva, size := d.Location.DataSize }] },
    memoryList := fun _ _ => { memory_segments := [] },
    memory64List := fun _ _ => { memory_segments := [], base_rva := 0 },
    systemInfo := fun _ _ => { ProcessorArchitecture := .AMD64 },
    commentA := fun _ d => { data := [d.Location.Rva] },
    commentW := fun _ d => { data := [d.Location.Rva] },
    exceptionList := fun _ d => { data := [d.Location.Rva] },
    handleData := fun _ d => { data := [d.Location.Rva] },
    unloadedModuleList := fun _ d => { data := [d.Location.Rva] },
    miscInfo := fun _ d => { data := [d.Location.Rva] },
    memoryInfoList := fun _ d => { data := [d.Location.Rva] },
    threadInfoList := fun _ d => { data := [d.Location.Rva] } }

/-- First duplicate module-list entry for the C9 witness. -/
def c9dirA : MINIDUMP_DIRECTORY :=
  { StreamType := .ModuleListStream, Location := { Rva := 11, DataSize := 1 } }

/-- Second duplicate module-list entry for the C9 witness; it appears
last, so its decoded value must win. -/
def c9dirB : MINIDUMP_DIRECTORY :=
  { StreamType := .ModuleListStream, Location := { Rva := 22, DataSize := 2 } }

/-- Directory table with two module-list entries around an unrelated
entry. -/
def c9dirs : List MINIDUMP_DIRECTORY :=
  [c9dirA, { StreamType := .ThreadListStream, Location := { Rva := 5, DataSize := 1 } }, c9dirB]

/-- Mapped region used by the C5 witness: two zero bytes at virtual
address 80 followed by nonzero data. -/
def c5reader : BuffReader :=
  { segments := [{ start_address := 80, data := [0, 0, 9, 9] }],
    current_position := 0, readLog := [] }

/-- Reader state after the successful seek to the witness field address. -/
def c5moved : BuffReader :=
  { segments := [{ start_address := 80, data := [0, 0, 9, 9] }],
    current_position := 80, readLog := [] }

/-- UTF-16LE bytes of the block `A=1 NUL B=22 NUL NUL`, mapped at virtual
address 0x2000 for the C7 scenario. -/
def c7block : Bytes :=
  [0x41, 0, 0x3D, 0, 0x31, 0, 0, 0, 0x42, 0, 0x3D, 0, 0x32, 0, 0x32, 0, 0, 0, 0, 0]

/-- Reader over the single mapped region holding `c7block`. -/
def c7reader : BuffReader :=
  { segments := [{ start_address := 0x2000, data := c7block }],
    current_position := 0, readLog := [] }

/-- UTF-16LE bytes of the block `A=B=C NUL NUL`, mapped at virtual address
0x3000, exercising a value that itself contains `=`. -/
def c6block : Bytes :=
  [0x41, 0, 0x3D, 0, 0x42, 0, 0x3D, 0, 0x43, 0, 0, 0, 0, 0]

/-- Reader over the single mapped region holding `c6block`. -/
def c6reader : BuffReader :=
  { segments := [{ start_address := 0x3000, data := c6block }],
    current_position := 0, readLog := [] }

/-- Context decoder used by the C3 counterexample: fails exactly at file
offset 100. -/
def c3p64 : Bytes → Nat → Except Unit CONTEXT :=
  fun _ rva => if rva = 100 then .error () else .ok { raw := [1] }

/-- A 32-bit context decoder that always succeeds; unused under AMD64. -/
def c3p32 : Bytes → Nat → Except Unit WOW64_CONTEXT :=
  fun _ _ => .ok { raw := [] }

/-- A 32-bit context decoder for the INTEL arm of the C3 counterexample
and witness: fails exactly at file offset 100, like `c3p64`. -/
def c3p32f : Bytes → Nat → Except Unit WOW64_CONTEXT :=
  fun _ rva => if rva = 100 then .error () else .ok { raw := [2] }

/-- Thread whose context decode succeeds (offset 300). -/
def c3t0 : MinidumpThread := { Teb := 0, ThreadContext := { Rva := 300, DataSize := 0 } }

/-- Thread whose context decode fails (offset 100). -/
def c3t1 : MinidumpThread := { Teb := 0, ThreadContext := { Rva := 100, DataSize := 0 } }

/-- Thread after the failing one; its own decode would succeed (offset 200). -/
def c3t2 : MinidumpThread := { Teb := 0, ThreadContext := { Rva := 200, DataSize := 0 } }

/-- A 64-bit context decoder for the C4 witness (always succeeds). -/
def c4p64 : Bytes → Nat → Except Unit CONTEXT := fun _ rva => .ok { raw := [rva] }

/-- A 32-bit context decoder for the C4 witness (always succeeds). -/
def c4p32 : Bytes → Nat → Except Unit WOW64_CONTEXT := fun _ rva => .ok { raw := [rva, rva] }

/-- Thread descriptor for the C4 witness. -/
def c4t : MinidumpThread := { Teb := 7, ThreadContext := { Rva := 40, DataSize := 4 } }

/-- Minimal container for the C2 counterexample: a valid header, one
thread-list directory entry, no memory streams — so the PEB walk's very
first seek hits an unmapped address. -/
def c2file : Bytes :=
  [0x4D, 0x44, 0x4D, 0x50, 0, 0, 0, 0, 1, 0, 0, 0, 16, 0, 0, 0,
   3, 0, 0, 0, 0, 0, 0, 0, 0, 0, 0, 0]

/-- Header and directory table that `parse_header_stage` recovers from
`c2file`. -/
def c2hd : MinidumpHeader × List MINIDUMP_DIRECTORY :=
  ({ Signature := 0x504D444D, NumberOfStreams := 1, StreamDirectoryRva := 16 },
   [{ StreamType := .ThreadListStream, Location := { Rva := 0, DataSize := 0 } }])

/-- Model state of the C2 counterexample after the header and directory
stages (before the PEB walk). -/
def c2afterDirs : MinidumpFile :=
  match parse_header_stage c2file with
  | .ok hd =>
    parse_directories cdec c4p64 c4p32 c2file
      { minidumpFileInit with header := some hd.fst, directories := hd.snd }
  | .error _ => minidumpFileInit

/-- Model without a module list, for the C10 witness. -/
def c10noModules : MinidumpFile := minidumpFileInit

/-- Model with an (empty) module list and no memory-segment lists, for
the C10 witness. -/
def c10withModules : MinidumpFile :=
  { minidumpFileInit with modules := some { modules := [] } }

/-- Decidable equality of `Except` results, for evaluating the embedded
parser on concrete inputs. -/
instance {e a : Type} [DecidableEq e] [DecidableEq a] : DecidableEq (Except e a) := fun x y =>
  match x, y with
  | .ok v, .ok w =>
    if h : v = w then .isTrue (by rw [h]) else .isFalse (by intro hc; cases hc; exact h rfl)
  | .error v, .error w =>
    if h : v = w then .isTrue (by rw [h]) else .isFalse (by intro hc; cases hc; exact h rfl)
  | .ok _, .error _ => .isFalse (by intro hc; cases hc)
  | .error _, .ok _ => .isFalse (by intro hc; cases hc)

/-- C1.  Bitness inference: the process-wide 64-bit flag computed at the
start of the PEB walk is true if and only if a 64-bit memory-region list
is present, or a 32-bit region list is present and some region in it has
a start virtual address greater than 0xFFFFFFFF; with only a 32-bit list
whose start addresses are all at most 0xFFFFFFFF and no 64-bit list, the
flag is false. -/
theorem c1_bitness_inference (s64 : Option MinidumpMemory64List) (s32 : Option MinidumpMemoryList) :
    x64flag s64 s32 = true ↔
      s64.isSome = true ∨
        (∃ ml, s32 = some ml ∧
          ∃ mem ∈ ml.memory_segments, 0xFFFFFFFF < mem.start_virtual_address) := by
  cases s64 <;> cases s32 <;> simp [x64flag, List.any_eq_true]

/-- Instrumentation fact: one `read` appends exactly one entry, recording
the cursor position and the requested length. -/
theorem BuffReader.read_log (r : BuffReader) (n : Nat) :
    ((r.read n).snd).readLog = r.readLog ++ [(r.current_position, n)] := by
  unfold BuffReader.read
  cases segmentFor r.segments r.current_position <;> simp

/-- C5.  For every field address whose 2-byte little-endian length prefix
reads as zero, the UTF-16 length-prefixed string decoder returns the empty
string and performs no further reads: its read log extends the caller's by
exactly the one 2-byte read at the field address, so the buffer pointer at
the field address plus the bitness-dependent sub-offset is never
dereferenced. -/
theorem c5_zero_length_string (r r1 : BuffReader) (addr : Nat) (x64 : Bool)
    (hmove : r.move addr = Except.ok r1)
    (hzero : fromBytesLE (r1.read 2).fst = 0) :
    read_unicode_string_property r addr x64 = Except.ok ("", (r1.read 2).snd) ∧
      ((r1.read 2).snd).readLog = r.readLog ++ [(addr, 2)] := by
  have h1 : r1 = { r with current_position := addr } := by
    unfold BuffReader.move at hmove
    cases h : segmentFor r.segments addr with
    | none => rw [h] at hmove; cases hmove
    | some s => rw [h] at hmove; cases hmove; rfl
  constructor
  · unfold read_unicode_string_property
    rw [hmove]
    simp [hzero]
  · rw [BuffReader.read_log, h1]

/-- Witness for C5 at a concrete reader whose length prefix is zero. -/
theorem c5_zero_length_string_witness :
    read_unicode_string_property c5reader 80 true = Except.ok ("", (c5moved.read 2).snd) ∧
      ((c5moved.read 2).snd).readLog = c5reader.readLog ++ [(80, 2)] :=
  c5_zero_length_string c5reader c5moved 80 true (by decide) (by decide)

/-- C7.  Environment block scenario: when the mapped region at the
environment pointer contains the UTF-16 encoding of the NUL-terminated
entries `A=1` and `B=22` with the block closed by an extra NUL, the
environment scan terminates successfully with exactly the two pairs
(A, 1) and (B, 22) in that order. -/
theorem c7_environment_scenario :
    (envScan (envFuel c7reader.segments) c7reader 0x2000 []).toOption.map Prod.fst
      = some [{ name := "A", value := "1" }, { name := "B", value := "22" }] := by
  decide

/-- Counterexample to C6: for the entry `A=B=C` the scan records the value
`B` — the chunk between the first and second `=` — not the entire
remainder `B=C` after the first `=` that the claim demands. -/
theorem c6_counterexample :
    (envScan (envFuel c6reader.segments) c6reader 0x3000 []).toOption.map Prod.fst
        = some [{ name := "A", value := "B" }] ∧
      ¬ ((envScan (envFuel c6reader.segments) c6reader 0x3000 []).toOption.map Prod.fst
        = some [{ name := "A", value := "B=C" }]) := by
  decide

/-- Head chunk of the Python-style split: always the maximal `=`-free
first segment of the entry. -/
theorem splitOnChar_head (c : Char) (l : List Char) :
    (splitOnChar c l).head? = some (l.takeWhile (fun x => decide (x ≠ c))) := by
  induction l with
  | nil => simp [splitOnChar]
  | cons x xs ih =>
    by_cases h : x = c
    · simp [splitOnChar, h, List.takeWhile_cons]
    · unfold splitOnChar
      simp only [if_neg h]
      cases hs : splitOnChar c xs with
      | nil => rw [hs] at ih; cases ih
      | cons g gs =>
        rw [hs] at ih
        simp at ih
        simp [List.takeWhile_cons, h, ih]

/-- C6 (amended).  The environment-entry split used by the scan takes the
text before the first `=` as the name, and as the value only the chunk
strictly between the first and the second `=`: the second element of the
Python split, not the entire remainder of the entry. -/
theorem c6_split_semantics (s : List Char) (h : '=' ∈ s) :
    (splitOnChar '=' s).headD [] = s.takeWhile (fun x => decide (x ≠ '=')) ∧
      (splitOnChar '=' s)[1]? =
        some (((s.dropWhile (fun x => decide (x ≠ '='))).tail).takeWhile
          (fun x => decide (x ≠ '='))) := by
  induction s with
  | nil => cases h
  | cons x xs ih =>
    by_cases hx : x = '='
    · subst hx
      constructor
      · simp [splitOnChar, List.takeWhile_cons]
      · have hh := splitOnChar_head '=' xs
        simp [splitOnChar, List.dropWhile_cons]
        cases hs : splitOnChar '=' xs with
        | nil => rw [hs] at hh; cases hh
        | cons g gs =>
          rw [hs] at hh
          simp at hh
          simp [hh]
    · have hmem : '=' ∈ xs := by
        cases h with
        | head => exact absurd rfl hx
        | tail _ hm => exact hm
      obtain ⟨ih1, ih2⟩ := ih hmem
      unfold splitOnChar
      simp only [if_neg hx]
      cases hs : splitOnChar '=' xs with
      | nil => rw [hs] at ih1; cases hs ▸ splitOnChar_head '=' xs
      | cons g gs =>
        rw [hs] at ih1 ih2
        constructor
        · simpa [List.takeWhile_cons, hx] using ih1
        · simpa [List.dropWhile_cons, hx] using ih2

/-- Witness for the amended C6 on the concrete entry `A=B=C`. -/
theorem c6_split_semantics_witness :
    (splitOnChar '=' ['A', '=', 'B', '=', 'C']).headD []
        = ['A', '=', 'B', '=', 'C'].takeWhile (fun x => decide (x ≠ '=')) ∧
      (splitOnChar '=' ['A', '=', 'B', '=', 'C'])[1]? =
        some ((['A', '=', 'B', '=', 'C'].dropWhile (fun x => decide (x ≠ '='))).tail.takeWhile
          (fun x => decide (x ≠ '='))) :=
  c6_split_semantics ['A', '=', 'B', '=', 'C'] (by decide)

/-- Unfolding fact for the per-thread loop: under AMD64, a failing decode
at the head thread stops the loop with everything unchanged. -/
theorem loop_cons_amd64_error
    (p64 : Bytes → Nat → Except Unit CONTEXT)
    (p32 : Bytes → Nat → Except Unit WOW64_CONTEXT)
    (file : Bytes) (t : MinidumpThread) (ts : List MinidumpThread)
    (h : p64 file t.ThreadContext.Rva = Except.error ()) :
    parse_thread_context_loop p64 p32 file PROCESSOR_ARCHITECTURE.AMD64 (t :: ts)
      = (t :: ts, true) := by
  simp [parse_thread_context_loop, h]

/-- Unfolding fact for the per-thread loop: under AMD64, a successful
decode at the head thread stores the 64-bit shape and continues. -/
theorem loop_cons_amd64_ok
    (p64 : Bytes → Nat → Except Unit CONTEXT)
    (p32 : Bytes → Nat → Except Unit WOW64_CONTEXT)
    (file : Bytes) (t : MinidumpThread) (ts : List MinidumpThread) (c : CONTEXT)
    (h : p64 file t.ThreadContext.Rva = Except.ok c) :
    parse_thread_context_loop p64 p32 file PROCESSOR_ARCHITECTURE.AMD64 (t :: ts)
      = ({ t with ContextObject := some (.full c) } ::
          (parse_thread_context_loop p64 p32 file PROCESSOR_ARCHITECTURE.AMD64 ts).fst,
         (parse_thread_context_loop p64 p32 file PROCESSOR_ARCHITECTURE.AMD64 ts).snd) := by
  simp [parse_thread_context_loop, h]

/-- Unfolding fact for the per-thread loop: under INTEL, a failing decode
at the head thread stops the loop with everything unchanged. -/
theorem loop_cons_intel_error
    (p64 : Bytes → Nat → Except Unit CONTEXT)
    (p32 : Bytes → Nat → Except Unit WOW64_CONTEXT)
    (file : Bytes) (t : MinidumpThread) (ts : List MinidumpThread)
    (h : p32 file t.ThreadContext.Rva = Except.error ()) :
    parse_thread_context_loop p64 p32 file PROCESSOR_ARCHITECTURE.INTEL (t :: ts)
      = (t :: ts, true) := by
  simp [parse_thread_context_loop, h]

/-- Unfolding fact for the per-thread loop: under INTEL, a successful
decode at the head thread stores the 32-bit shape and continues. -/
theorem loop_cons_intel_ok
    (p64 : Bytes → Nat → Except Unit CONTEXT)
    (p32 : Bytes → Nat → Except Unit WOW64_CONTEXT)
    (file : Bytes) (t : MinidumpThread) (ts : List MinidumpThread) (c : WOW64_CONTEXT)
    (h : p32 file t.ThreadContext.Rva = Except.ok c) :
    parse_thread_context_loop p64 p32 file PROCESSOR_ARCHITECTURE.INTEL (t :: ts)
      = ({ t with ContextObject := some (.wow64 c) } ::
          (parse_thread_context_loop p64 p32 file PROCESSOR_ARCHITECTURE.INTEL ts).fst,
         (parse_thread_context_loop p64 p32 file PROCESSOR_ARCHITECTURE.INTEL ts).snd) := by
  simp [parse_thread_context_loop, h]

/-- Unfolding fact for the per-thread loop: under a tag that is neither
AMD64 nor INTEL, the head thread is passed over unchanged. -/
theorem loop_cons_other
    (p64 : Bytes → Nat → Except Unit CONTEXT)
    (p32 : Bytes → Nat → Except Unit WOW64_CONTEXT)
    (file : Bytes) (arch : PROCESSOR_ARCHITECTURE) (t : MinidumpThread)
    (ts : List MinidumpThread)
    (h1 : arch ≠ PROCESSOR_ARCHITECTURE.AMD64) (h2 : arch ≠ PROCESSOR_ARCHITECTURE.INTEL) :
    parse_thread_context_loop p64 p32 file arch (t :: ts)
      = (t :: (parse_thread_context_loop p64 p32 file arch ts).fst,
         (parse_thread_context_loop p64 p32 file arch ts).snd) := by
  simp [parse_thread_context_loop, h1, h2]

/-- Counterexample to C3: with two threads whose first context decode
fails, the second thread's context stays empty after the loop even though
its own decode succeeds - a single thread's failure does abort decoding
for the remaining threads.  This happens on both decode branches: under
the AMD64 tag (`CONTEXT.parse`) and under the INTEL tag
(`WOW64_CONTEXT.parse`). -/
theorem c3_counterexample :
    (((parse_thread_context_loop c3p64 c3p32 [] PROCESSOR_ARCHITECTURE.AMD64 [c3t1, c3t2]).fst.map
        (fun t => t.ContextObject)) = [none, none] ∧
      c3p64 [] c3t2.ThreadContext.Rva = Except.ok { raw := [1] }) ∧
    (((parse_thread_context_loop c3p64 c3p32f [] PROCESSOR_ARCHITECTURE.INTEL [c3t1, c3t2]).fst.map
        (fun t => t.ContextObject)) = [none, none] ∧
      c3p32f [] c3t2.ThreadContext.Rva = Except.ok { raw := [2] }) := by
  decide

/-- C3 (amended).  If decoding the register context of one thread raises,
the per-thread loop stops: the threads before the failing one keep their
decoded contexts, while the failing thread and every thread after it are
left untouched, and the escaping exception is reported (it is then caught
and swallowed at the `__parse_directories` level, so the overall parse
continues).  This holds on both decode branches: under the AMD64 tag when
`CONTEXT.parse` fails, and under the INTEL tag when `WOW64_CONTEXT.parse`
fails. -/
theorem c3_failure_stops_loop
    (p64 : Bytes → Nat → Except Unit CONTEXT)
    (p32 : Bytes → Nat → Except Unit WOW64_CONTEXT)
    (file : Bytes) (pre post : List MinidumpThread) (t : MinidumpThread) :
    ((parse_thread_context_loop p64 p32 file PROCESSOR_ARCHITECTURE.AMD64 pre).snd = false →
      p64 file t.ThreadContext.Rva = Except.error () →
      parse_thread_context_loop p64 p32 file PROCESSOR_ARCHITECTURE.AMD64 (pre ++ t :: post)
        = ((parse_thread_context_loop p64 p32 file PROCESSOR_ARCHITECTURE.AMD64 pre).fst
            ++ t :: post, true)) ∧
    ((parse_thread_context_loop p64 p32 file PROCESSOR_ARCHITECTURE.INTEL pre).snd = false →
      p32 file t.ThreadContext.Rva = Except.error () →
      parse_thread_context_loop p64 p32 file PROCESSOR_ARCHITECTURE.INTEL (pre ++ t :: post)
        = ((parse_thread_context_loop p64 p32 file PROCESSOR_ARCHITECTURE.INTEL pre).fst
            ++ t :: post, true)) := by
  constructor
  · intro hpre hfail
    induction pre with
    | nil =>
      simp only [List.nil_append]
      rw [loop_cons_amd64_error p64 p32 file t post hfail]
      simp [parse_thread_context_loop]
    | cons a as ih =>
      cases h : p64 file a.ThreadContext.Rva with
      | error e =>
        exfalso
        rw [loop_cons_amd64_error p64 p32 file a as h] at hpre
        exact absurd hpre (by simp)
      | ok c =>
        have hpre' :
            (parse_thread_context_loop p64 p32 file PROCESSOR_ARCHITECTURE.AMD64 as).snd
              = false := by
          rw [loop_cons_amd64_ok p64 p32 file a as c h] at hpre
          exact hpre
        simp only [List.cons_append]
        rw [loop_cons_amd64_ok p64 p32 file a _ c h, ih hpre',
          loop_cons_amd64_ok p64 p32 file a as c h]
        simp
  · intro hpre hfail
    induction pre with
    | nil =>
      simp only [List.nil_append]
      rw [loop_cons_intel_error p64 p32 file t post hfail]
      simp [parse_thread_context_loop]
    | cons a as ih =>
      cases h : p32 file a.ThreadContext.Rva with
      | error e =>
        exfalso
        rw [loop_cons_intel_error p64 p32 file a as h] at hpre
        exact absurd hpre (by simp)
      | ok c =>
        have hpre' :
            (parse_thread_context_loop p64 p32 file PROCESSOR_ARCHITECTURE.INTEL as).snd
              = false := by
          rw [loop_cons_intel_ok p64 p32 file a as c h] at hpre
          exact hpre
        simp only [List.cons_append]
        rw [loop_cons_intel_ok p64 p32 file a _ c h, ih hpre',
          loop_cons_intel_ok p64 p32 file a as c h]
        simp

/-- Witness for the amended C3 on both branches: one successfully decoded
thread, then the failing thread, then an untouched subsequent thread,
under the AMD64 tag and under the INTEL tag. -/
theorem c3_failure_stops_loop_witness :
    (parse_thread_context_loop c3p64 c3p32f [] PROCESSOR_ARCHITECTURE.AMD64
        ([c3t0] ++ c3t1 :: [c3t2])
      = ((parse_thread_context_loop c3p64 c3p32f [] PROCESSOR_ARCHITECTURE.AMD64 [c3t0]).fst
          ++ c3t1 :: [c3t2], true)) ∧
    (parse_thread_context_loop c3p64 c3p32f [] PROCESSOR_ARCHITECTURE.INTEL
        ([c3t0] ++ c3t1 :: [c3t2])
      = ((parse_thread_context_loop c3p64 c3p32f [] PROCESSOR_ARCHITECTURE.INTEL [c3t0]).fst
          ++ c3t1 :: [c3t2], true)) :=
  ⟨(c3_failure_stops_loop c3p64 c3p32f [] [c3t0] [c3t2] c3t1).1 (by decide) (by decide),
   (c3_failure_stops_loop c3p64 c3p32f [] [c3t0] [c3t2] c3t1).2 (by decide) (by decide)⟩

/-- C4.  Context dispatch: under the AMD64 tag every thread's context slot
is filled with the 64-bit shape decoded at that thread's context-record
file location; under the INTEL tag with the 32-bit (WOW64) shape; under
any other tag the thread list is returned unchanged (contexts left empty)
and no error is reported. -/
theorem c4_context_dispatch
    (p64 : Bytes → Nat → Except Unit CONTEXT)
    (p32 : Bytes → Nat → Except Unit WOW64_CONTEXT)
    (file : Bytes) (ths : List MinidumpThread) :
    (∀ arch, arch ≠ PROCESSOR_ARCHITECTURE.AMD64 → arch ≠ PROCESSOR_ARCHITECTURE.INTEL →
        parse_thread_context_loop p64 p32 file arch ths = (ths, false)) ∧
      ((∀ t ∈ ths, exceptIsOk (p64 file t.ThreadContext.Rva) = true) →
        parse_thread_context_loop p64 p32 file PROCESSOR_ARCHITECTURE.AMD64 ths
          = (ths.map (fun t => { t with ContextObject :=
              (exceptToOption (p64 file t.ThreadContext.Rva)).map ThreadCtx.full }), false)) ∧
      ((∀ t ∈ ths, exceptIsOk (p32 file t.ThreadContext.Rva) = true) →
        parse_thread_context_loop p64 p32 file PROCESSOR_ARCHITECTURE.INTEL ths
          = (ths.map (fun t => { t with ContextObject :=
              (exceptToOption (p32 file t.ThreadContext.Rva)).map ThreadCtx.wow64 }), false)) := by
  refine ⟨?_, ?_, ?_⟩
  · intro arch h1 h2
    induction ths with
    | nil => simp [parse_thread_context_loop]
    | cons t ts ih =>
      rw [loop_cons_other p64 p32 file arch t ts h1 h2, ih]
  · intro hok
    induction ths with
    | nil => simp [parse_thread_context_loop]
    | cons t ts ih =>
      have ht := hok t (by simp)
      cases h : p64 file t.ThreadContext.Rva with
      | error e => rw [h] at ht; cases ht
      | ok c =>
        have hh := ih (fun t' ht' => hok t' (by simp [ht']))
        rw [loop_cons_amd64_ok p64 p32 file t ts c h, hh]
        simp [exceptToOption, h]
  · intro hok
    induction ths with
    | nil => simp [parse_thread_context_loop]
    | cons t ts ih =>
      have ht := hok t (by simp)
      cases h : p32 file t.ThreadContext.Rva with
      | error e => rw [h] at ht; cases ht
      | ok c =>
        have hh := ih (fun t' ht' => hok t' (by simp [ht']))
        rw [loop_cons_intel_ok p64 p32 file t ts c h, hh]
        simp [exceptToOption, h]

/-- Witness for C4 at one concrete thread under an ARM64 tag, the AMD64
tag and the INTEL tag. -/
theorem c4_context_dispatch_witness :
    parse_thread_context_loop c4p64 c4p32 [] PROCESSOR_ARCHITECTURE.ARM64 [c4t] = ([c4t], false) ∧
      parse_thread_context_loop c4p64 c4p32 [] PROCESSOR_ARCHITECTURE.AMD64 [c4t]
        = ([c4t].map (fun t => { t with ContextObject :=
            (exceptToOption (c4p64 [] t.ThreadContext.Rva)).map ThreadCtx.full }), false) ∧
      parse_thread_context_loop c4p64 c4p32 [] PROCESSOR_ARCHITECTURE.INTEL [c4t]
        = ([c4t].map (fun t => { t with ContextObject :=
            (exceptToOption (c4p32 [] t.ThreadContext.Rva)).map ThreadCtx.wow64 }), false) :=
  ⟨(c4_context_dispatch c4p64 c4p32 [] [c4t]).1 PROCESSOR_ARCHITECTURE.ARM64 (by decide) (by decide),
   (c4_context_dispatch c4p64 c4p32 [] [c4t]).2.1 (by decide),
   (c4_context_dispatch c4p64 c4p32 [] [c4t]).2.2 (by decide)⟩

/-- Dispatch step on an entry of a different tag leaves a tag's field
untouched. -/
theorem getStreamField_dirStep_ne (dec : StreamDecoders) (file : Bytes) (m : MinidumpFile)
    (dir : MINIDUMP_DIRECTORY) (t : MINIDUMP_STREAM_TYPE) (h : dir.StreamType ≠ t) :
    getStreamField t (dirStep dec file m dir) = getStreamField t m := by
  obtain ⟨st, loc⟩ := dir
  cases st <;> cases t <;> simp_all [dirStep, getStreamField]

/-- Dispatch step on an entry of an assigning tag overwrites that tag's
field with the entry's decoded value. -/
theorem getStreamField_dirStep_eq (dec : StreamDecoders) (file : Bytes) (m : MinidumpFile)
    (dir : MINIDUMP_DIRECTORY) (t : MINIDUMP_STREAM_TYPE) (h : dir.StreamType = t)
    (ha : assigningTag t = true) :
    getStreamField t (dirStep dec file m dir) = decodeValue dec file t dir := by
  obtain ⟨st, loc⟩ := dir
  subst h
  cases st <;> simp_all [dirStep, getStreamField, decodeValue, assigningTag]

/-- Folding the dispatch step: a tag's field ends up holding the decoded
value of the last entry with that tag, or the starting value when the tag
never occurs. -/
theorem getStreamField_foldl (dec : StreamDecoders) (file : Bytes) (t : MINIDUMP_STREAM_TYPE)
    (ha : assigningTag t = true) :
    ∀ (dirs : List MINIDUMP_DIRECTORY) (m : MinidumpFile),
      getStreamField t (dirs.foldl (dirStep dec file) m) =
        match (dirs.filter (fun d => decide (d.StreamType = t))).getLast? with
        | none => getStreamField t m
        | some d => decodeValue dec file t d := by
  intro dirs
  induction dirs with
  | nil => intro m; simp
  | cons d ds ih =>
    intro m
    rw [List.foldl_cons, ih]
    by_cases h : d.StreamType = t
    · have hf : (d :: ds).filter (fun x => decide (x.StreamType = t))
          = d :: ds.filter (fun x => decide (x.StreamType = t)) := by
        simp [List.filter_cons, h]
      rw [hf]
      cases hfl : ds.filter (fun x => decide (x.StreamType = t)) with
      | nil =>
        simp only [List.getLast?_singleton]
        exact getStreamField_dirStep_eq dec file m d t h ha
      | cons e es =>
        rw [List.getLast?_cons_cons]
        cases hlast : (e :: es).getLast? with
        | none =>
          rw [List.getLast?_eq_none_iff] at hlast
          cases hlast
        | some x => rfl
    · have hf : (d :: ds).filter (fun x => decide (x.StreamType = t))
          = ds.filter (fun x => decide (x.StreamType = t)) := by
        simp [List.filter_cons, h]
      rw [hf]
      cases hfl : ds.filter (fun x => decide (x.StreamType = t)) with
      | nil => exact getStreamField_dirStep_ne dec file m d t h
      | cons e es => rfl

/-- Freshly initialized model owns no stream field. -/
theorem getStreamField_init (t : MINIDUMP_STREAM_TYPE) :
    getStreamField t minidumpFileInit = none := by
  cases t <;> rfl

/-- C9.  Duplicate-stream last-wins: for every directory table containing
two or more entries with the same recognized (assigning) stream-type tag,
after the dispatch loop of `__parse_directories` completes, the tag's
model field holds the decoded value of the entry appearing last in
directory-table order. -/
theorem c9_duplicate_last_wins (dec : StreamDecoders) (file : Bytes)
    (dirs : List MINIDUMP_DIRECTORY) (t : MINIDUMP_STREAM_TYPE)
    (ha : assigningTag t = true)
    (hdup : 2 ≤ (dirs.filter (fun d => decide (d.StreamType = t))).length) :
    getStreamField t (dirs.foldl (dirStep dec file) minidumpFileInit) =
      ((dirs.filter (fun d => decide (d.StreamType = t))).getLast?).bind
        (fun d => decodeValue dec file t d) := by
  rw [getStreamField_foldl dec file t ha dirs minidumpFileInit]
  cases hfl : (dirs.filter (fun d => decide (d.StreamType = t))).getLast? with
  | none => simp [getStreamField_init]
  | some d => rfl

/-- Witness for C9: two module-list entries; the model's module field is
the decode of the one appearing last. -/
theorem c9_duplicate_last_wins_witness :
    getStreamField MINIDUMP_STREAM_TYPE.ModuleListStream
        (c9dirs.foldl (dirStep cdec []) minidumpFileInit) =
      ((c9dirs.filter
          (fun d => decide (d.StreamType = MINIDUMP_STREAM_TYPE.ModuleListStream))).getLast?).bind
        (fun d => decodeValue cdec [] MINIDUMP_STREAM_TYPE.ModuleListStream d) :=
  c9_duplicate_last_wins cdec [] c9dirs MINIDUMP_STREAM_TYPE.ModuleListStream
    (by decide) (by decide)

/-- Counterexample to C2: on `c2file` the header and directory stages
succeed (the thread list is decoded), yet the PEB walk's unmapped-address
failure escapes `_parse` uncaught - the caller receives the error and not
the partially decoded model. -/
theorem c2_counterexample :
    parse_bytes cdec c4p64 c4p32 c2file = Except.error ReadErr.unmappedAddress ∧
      exceptIsOk (parse_header_stage c2file) = true ∧
      c2afterDirs.threads.isSome = true ∧
      parse_peb c2file c2afterDirs = Except.error ReadErr.unmappedAddress := by
  decide

/-- C2 (amended).  A failure raised while walking the PEB is not caught
anywhere in `_parse`: whenever the header stage succeeds and the PEB walk
over the post-directory model fails, the whole parse returns that error
and the caller receives no model (only thread-context failures are caught,
inside `__parse_directories`). -/
theorem c2_peb_failure_propagates (dec : StreamDecoders)
    (p64 : Bytes → Nat → Except Unit CONTEXT)
    (p32 : Bytes → Nat → Except Unit WOW64_CONTEXT)
    (file : Bytes) (hd : MinidumpHeader × List MINIDUMP_DIRECTORY) (e : ReadErr)
    (h1 : parse_header_stage file = Except.ok hd)
    (h2 : parse_peb file
        (parse_directories dec p64 p32 file
          { minidumpFileInit with header := some hd.fst, directories := hd.snd })
      = Except.error e) :
    parse_bytes dec p64 p32 file = Except.error e := by
  unfold parse_bytes _parse
  rw [h1]
  simpa using h2

/-- Witness for the amended C2 at the concrete container `c2file`. -/
theorem c2_peb_failure_propagates_witness :
    parse_bytes cdec c4p64 c4p32 c2file = Except.error ReadErr.unmappedAddress :=
  c2_peb_failure_propagates cdec c4p64 c4p32 c2file c2hd ReadErr.unmappedAddress
    (by decide) (by decide)

/-- C8.  Determinism: the embedded parse is a pure function of the input
bytes (and the supplied collaborator decoders), so running it twice on
equal copies of the same bytes yields models equal field by field; no
other state enters the result. -/
theorem c8_parse_deterministic (dec : StreamDecoders)
    (p64 : Bytes → Nat → Except Unit CONTEXT)
    (p32 : Bytes → Nat → Except Unit WOW64_CONTEXT)
    (d1 d2 : Bytes) (h : d1 = d2) :
    parse_bytes dec p64 p32 d1 = parse_bytes dec p64 p32 d2 := by
  rw [h]

/-- Witness for C8 on the concrete container bytes. -/
theorem c8_parse_deterministic_witness :
    parse_bytes cdec c4p64 c4p32 c2file = parse_bytes cdec c4p64 c4p32 c2file :=
  c8_parse_deterministic cdec c4p64 c4p32 c2file c2file rfl

/-- C10.  The textual summary renderer fails with an attribute error on
every model lacking a module list, while for every model that has one -
whatever its memory-segment lists, both guarded by explicit `None`
checks - rendering succeeds. -/
theorem c10_render_guards (m : MinidumpFile) :
    (m.modules = none → MinidumpFile.str m = Except.error ReadErr.noneAttribute) ∧
      (∀ ml, m.modules = some ml → ∃ s, MinidumpFile.str m = Except.ok s) := by
  constructor
  · intro h
    unfold MinidumpFile.str
    rw [h]
  · intro ml h
    unfold MinidumpFile.str
    rw [h]
    exact ⟨_, rfl⟩

/-- Witness for C10: a model without modules raises; a model with modules
and no memory-segment lists renders successfully. -/
theorem c10_render_guards_witness :
    MinidumpFile.str c10noModules = Except.error ReadErr.noneAttribute ∧
      ∃ s, MinidumpFile.str c10withModules = Except.ok s :=
  ⟨(c10_render_guards c10noModules).1 rfl,
   (c10_render_guards c10withModules).2 { modules := [] } rfl⟩

end Minidump
